import Mathlib

/-
Verification of the AthenaJS tile-map engine (src/Map/Map.js, provided as
src/unnamed/part_002).  The `Map` class is shallowly embedded: the mutable
JavaScript object becomes the Lean structure `AthenaJS.Map`, every method of
interest becomes a pure state-passing function, the two `Uint8Array` planes
become `List Nat` of byte values, and the sparse `triggers` / `windows`
objects become `Int → Option _` finite-support functions.  JavaScript
numeric idioms are made explicit: `x / w | 0` is truncation toward zero
(`Int.tdiv` for integer inputs, `jsTrunc` for fractional ones), `%` is
`Int.tmod` (remainder with the sign of the dividend), out-of-range typed
array reads are `Option` lookups (JS yields `undefined`, which compares
unequal to every number), and out-of-range typed array writes are dropped.
-/

namespace AthenaJS

/-- Truncation toward zero of a rational number: the meaning of the
JavaScript `| 0` coercion applied to a fractional value.  `Rat` keeps a
positive denominator, so `num.tdiv den` truncates toward zero. -/
def jsTrunc (q : Rat) : Int := q.num.tdiv (q.den : Int)

/-- Modelled from the spec: `Tile.js` is not among the provided sources;
the spec describes the behavior plane as a small enum (Air, Wall, Ladder,
PlatformMarker, ...).  We fix Air = 1 and Wall = 2, consistent with the
debug renderer in `showTileBehaviors`, which paints behaviors greater
than 1 using a style table whose entries 2 and 3 are the colored ones.
No theorem below depends on the particular numeric values. -/
def TileTypeAIR : Nat := 1

/-- Modelled from the spec: the Wall entry of the behavior enum
(see `TileTypeAIR`). -/
def TileTypeWALL : Nat := 2

/-- Result object of `getTileIndexFromPixel`: the `{x, y}` cell index pair. -/
structure TilePos where
  x : Int
  y : Int
deriving DecidableEq, Repr

/-- Trigger record: `{fired/triggered flag, payload}`.  The payload stands
for the event-specific data the external handler consumes. -/
structure Trigger where
  triggered : Bool
  payload : Nat
deriving DecidableEq, Repr

/-- Entity placed on the map.  Mirrors the fields of the Drawable contract
that `Map` reads: position, velocity, hit-box (`getHitBox()` returns
`{x, y, x2, y2}`, embedded as the four `hb*` fields), collision-group tag
and master flag.  Rendering and animation state are external. -/
structure Obj where
  id : Nat
  x : Int := 0
  y : Int := 0
  vx : Int := 0
  vy : Int := 0
  hbx : Int := 0
  hby : Int := 0
  hbx2 : Int := 0
  hby2 : Int := 0
  collideGroup : Int := 0
  master : Bool := false
deriving DecidableEq, Repr

/-- Window record: `{displayed flag, items}`.  The source stores item
descriptors and instantiates them through the external
`RM.newResourceFromPool` factory; the embedding stores the objects that
factory returns. -/
structure Window where
  displayed : Bool
  items : List Obj
deriving DecidableEq, Repr

/-- Result object of `hitObjectTest`: `{x, y, tile: {x, y}}`. -/
structure HitRes where
  x : Int
  y : Int
  tileX : Int
  tileY : Int
deriving DecidableEq, Repr

/-- Easing function as called by `Map.update`:
`easing(t, ellapsedTime, 0, 1, duration)` returns the progress ratio. -/
abbrev EasingFn := Rat → Int → Int → Int → Int → Rat

/-- State of a `Map` instance: the fields of the source class that the
verified methods read or write.  `map` and `tileBehaviors` are the two
byte planes (in the source, two `Uint8Array` views of one buffer; the
visual view is limited to the first `numCols * numRows` bytes, so the
planes never alias and two lists model them exactly).  The rendering
fields (`src`, `tiles`, `srcBitmap`, offsets) belong to external drawing
collaborators and are omitted. -/
structure Map where
  width : Int
  height : Int
  tileWidth : Int
  tileHeight : Int
  numCols : Int
  numRows : Int
  map : List Nat
  tileBehaviors : List Nat
  viewportX : Int
  viewportY : Int
  viewportW : Int
  viewportH : Int
  xMax : Int
  yMax : Int
  viewportTargetX : Int := 0
  viewportTargetY : Int := 0
  viewportSpeedX : Int := 0
  viewportSpeedY : Int := 0
  viewportStartX : Int := 0
  viewportStartY : Int := 0
  moving : Bool := false
  startMoveTime : Int := 0
  duration : Int := 800
  triggers : Int → Option Trigger := fun _ => none
  windows : Int → Option Window := fun _ => none
  objects : List Obj := []
  enemies : List Obj := []
  friendBullets : List Obj := []
  platforms : List Obj := []
  masterObject : Option Obj := none
  maxWinX : Int := 0
  startX : Int := 0
  startY : Int := 0
  isDirty : Bool := true

namespace Map

/-- Read of `this.tileBehaviors[idx]`.  A JS typed-array read outside the
index range yields `undefined`; the embedding returns `none`, which is
unequal to `some code` for every code, exactly as `undefined === code`
is false for every number. -/
def behaviorAt (m : Map) (idx : Int) : Option Nat :=
  if 0 ≤ idx then m.tileBehaviors[idx.toNat]? else none

/-- Read of `this.map[idx]` (the visual plane), same convention as
`behaviorAt`. -/
def visualAt (m : Map) (idx : Int) : Option Nat :=
  if 0 ≤ idx then m.map[idx.toNat]? else none

/-- Write `arr[idx] = v` on a byte plane: JS `Uint8Array` drops
out-of-range writes and stores the value modulo 256. -/
def setByte (l : List Nat) (idx : Int) (v : Int) : List Nat :=
  if 0 ≤ idx ∧ idx.toNat < l.length then l.set idx.toNat (v.toNat % 256) else l

/-- Source `getTileIndexFromPixel(x, y)`:
`i = x / tileWidth | 0; j = y / tileHeight | 0` — truncation toward zero. -/
def getTileIndexFromPixel (m : Map) (x y : Int) : TilePos :=
  ⟨x.tdiv m.tileWidth, y.tdiv m.tileHeight⟩

/-- Source `getTileBehaviorAtIndex(col, row)`:
`this.tileBehaviors[this.numCols * row + col]`. -/
def getTileBehaviorAtIndex (m : Map) (col row : Int) : Option Nat :=
  m.behaviorAt (m.numCols * row + col)

/-- Source `fallTest(x, y)`:
`this.tileBehaviors[pos.x + pos.y * this.numCols] === Tile.TYPE.WALL`. -/
def fallTest (m : Map) (x y : Int) : Bool :=
  let pos := m.getTileIndexFromPixel x y
  m.behaviorAt (pos.x + pos.y * m.numCols) == some TileTypeWALL

/-- Source `updateTile(col, row, tileNum = -1, behavior = -1)`: writes the
visual byte when `tileNum > -1` and the behavior byte when
`behavior > -1`, both at `pos = row * numCols + col`, marking the map
dirty. -/
def updateTile (m : Map) (col row : Int) (tileNum : Int) (behavior : Int) : Map :=
  let pos := row * m.numCols + col
  let m1 := if tileNum > -1 then
    { m with map := setByte m.map pos tileNum, isDirty := true } else m
  if behavior > -1 then
    { m1 with tileBehaviors := setByte m1.tileBehaviors pos behavior, isDirty := true }
  else m1

/-- Source `setViewPort(x, y, width, height)`: sets the four viewport
fields with no boundary checks (the source comment says so explicitly). -/
def setViewPort (m : Map) (x y width height : Int) : Map :=
  { m with viewportX := x, viewportY := y, viewportW := width, viewportH := height }

/-- Source `moveTo(x, y)` (lines 604-624).  Snaps the request to the left
and top edges (`x < -xMax ? -xMax : x`), then, when not already moving and
the snapped target differs from the current position, stores the target
(additionally snapped to 0 from above), the start time (`Date.now()`,
passed here as `now`), the per-axis speeds (`targetX - viewportX | 0`,
where `| 0` is the identity on integers) and the start position, and sets
`moving`.  The `masterObject.savePosition()` call touches only the master
entity and is omitted. -/
def moveTo (m : Map) (now x y : Int) : Map :=
  let targetX := if x < -m.xMax then -m.xMax else x
  let targetY := if y < -m.yMax then -m.yMax else y
  if m.moving = false ∧ (m.viewportX ≠ targetX ∨ m.viewportY ≠ targetY) then
    { m with
      viewportTargetX := if targetX > 0 then 0 else targetX
      viewportTargetY := if targetY > 0 then 0 else targetY
      startMoveTime := now
      viewportSpeedX := targetX - m.viewportX
      viewportSpeedY := targetY - m.viewportY
      viewportStartX := m.viewportX
      viewportStartY := m.viewportY
      moving := true }
  else m

/-- Scroll branch of source `update(timestamp)` (lines 481-498), the only
code path of `update` that writes `viewportX`/`viewportY`: when a scroll
is in flight, either the elapsed time reached the duration and the
viewport snaps to the stored target with `moving` cleared, or the eased
progress is applied from the stored start position
(`viewportStartX + moveProgress * viewportSpeedX | 0`).  The non-moving
branch (`checkMasterPosition` / `checkForTriggers`) never writes the
viewport position, and the trailing `movePlatforms` / `moveObjects` calls
update external entities only. -/
def updateScroll (m : Map) (easing : EasingFn) (timestamp : Int) : Map :=
  if m.moving then
    let ellapsedTime := timestamp - m.startMoveTime
    if m.duration ≤ ellapsedTime then
      { m with moving := false, viewportX := m.viewportTargetX,
               viewportY := m.viewportTargetY, isDirty := true }
    else
      let t : Rat := (ellapsedTime : Rat) / (m.duration : Rat)
      let moveProgress := easing t ellapsedTime 0 1 m.duration
      { m with
        viewportX := jsTrunc ((m.viewportStartX : Rat) + moveProgress * (m.viewportSpeedX : Rat))
        viewportY := jsTrunc ((m.viewportStartY : Rat) + moveProgress * (m.viewportSpeedY : Rat))
        isDirty := true }
  else m

/-- Inclusive integer range `[a, a+1, ..., b]` (empty when `b < a`): the
index sequences produced by the source loops `for (i = a; i <= b; i++)`. -/
def intRange (a b : Int) : List Int :=
  (List.range (b + 1 - a).toNat).map (fun n : Nat => a + n)

/-- Inner loop of `hitObjectTest`: walk the row indices `js` for a fixed
column `i`, returning the first cell whose behavior byte equals `types`
(the source builds `{x: i, y: j, tile: {x: i*tileWidth, y: j*tileHeight}}`). -/
def rowScan (m : Map) (types : Nat) (i : Int) : List Int → Option HitRes
  | [] => none
  | j :: js =>
    if m.behaviorAt (j * m.numCols + i) = some types then
      some ⟨i, j, i * m.tileWidth, j * m.tileHeight⟩
    else rowScan m types i js

/-- Outer loop of `hitObjectTest`: walk the column indices, returning the
first hit of `rowScan` (the source `return` exits both loops). -/
def colScan (m : Map) (types : Nat) (js : List Int) : List Int → Option HitRes
  | [] => none
  | i :: is =>
    match rowScan m types i js with
    | some r => some r
    | none => colScan m types js is

/-- Source `hitObjectTest(x, y, x2, y2, types)` (lines 1013-1039): scans
columns `pos1.x .. pos2.x` (outer loop) and rows `pos1.y .. pos3.y`
(inner loop), where `pos1 = cell(x,y)`, `pos2 = cell(x2,y)`,
`pos3 = cell(x,y2)`; returns the first matching cell or `false`
(here `none`). -/
def hitObjectTest (m : Map) (x y x2 y2 : Int) (types : Nat) : Option HitRes :=
  let pos1 := m.getTileIndexFromPixel x y
  let pos2 := m.getTileIndexFromPixel x2 y
  let pos3 := m.getTileIndexFromPixel x y2
  colScan m types (intRange pos1.y pos3.y) (intRange pos1.x pos2.x)

/-- Cells of the scanned rectangle enumerated in the order the claim
asserts: top-to-bottom over rows, then left-to-right within a row. -/
def hitCellsRowMajor (m : Map) (x y x2 y2 : Int) : List (Int × Int) :=
  (intRange (y.tdiv m.tileHeight) (y2.tdiv m.tileHeight)).flatMap fun j =>
    (intRange (x.tdiv m.tileWidth) (x2.tdiv m.tileWidth)).map fun i => (i, j)

/-- Cells of the scanned rectangle enumerated in the order the code
implements: left-to-right over columns, then top-to-bottom within a
column. -/
def hitCellsColMajor (m : Map) (x y x2 y2 : Int) : List (Int × Int) :=
  (intRange (x.tdiv m.tileWidth) (x2.tdiv m.tileWidth)).flatMap fun i =>
    (intRange (y.tdiv m.tileHeight) (y2.tdiv m.tileHeight)).map fun j => (i, j)

/-- First cell carrying behavior `types` under an explicit enumeration
order, packaged like the source result object. -/
def firstHitIn (m : Map) (cells : List (Int × Int)) (types : Nat) : Option HitRes :=
  (cells.find? fun c => m.behaviorAt (c.2 * m.numCols + c.1) == some types).map
    fun c => ⟨c.1, c.2, c.1 * m.tileWidth, c.2 * m.tileHeight⟩

/-- Inner loop of `setNextX`:
`for (i = tilePos.y * tileHeight; i < spriteYMax; i += tileHeight, tilePos.y++)`
testing `tileBehaviors[tilePos.y * numCols + tilePos.x] === tileTypes` with
early exit.  The loop runs `⌈(spriteYMax - row·tileHeight)/tileHeight⌉`
times; `fuel` bounds the recursion and is harmless once at least that
large (exhaustion behaves like the loop guard failing). -/
def scanColumn (m : Map) (tileTypes : Nat) (colX : Int) (yMax : Int) :
    Nat → Int → Bool
  | 0, _ => false
  | fuel + 1, row =>
    if row * m.tileHeight < yMax then
      (m.behaviorAt (row * m.numCols + colX) == some tileTypes) ||
        scanColumn m tileTypes colX yMax fuel (row + 1)
    else false

/-- Outer `while` loop of `setNextX` (lines 869-885).  State per iteration:
`minX`, `startX` and the current tile position; the guard is
`(left && minX >= vx) || (!left && minX <= vx)`.  When the column scan
finds no hit, `minX` becomes the distance from the current `startX` to
the next column boundary (`++tilePos.x * tileWidth - startX` rightward,
`tilePos.x * tileWidth - startX` leftward), `startX` moves to that
boundary (minus one pixel leftward) and the tile position is recomputed
from the new `startX`.  Each iteration advances one tile column, so fuel
`|vx| / tileWidth + 2` suffices; exhaustion behaves like the guard
failing with the current `minX`. -/
def setNextXLoop (m : Map) (tileTypes : Nat) (left : Bool)
    (vx startY spriteYMax : Int) (innerFuel : Nat) :
    Nat → Int → Int → TilePos → Bool × Int
  | 0, minX, _, _ => (false, minX)
  | fuel + 1, minX, startX, tp =>
    if (left ∧ vx ≤ minX) ∨ (left = false ∧ minX ≤ vx) then
      if scanColumn m tileTypes tp.x spriteYMax innerFuel tp.y then (true, minX)
      else
        let newTileX := if left then tp.x else tp.x + 1
        let minX' := newTileX * m.tileWidth - startX
        let startX' := if left then newTileX * m.tileWidth - 1 else newTileX * m.tileWidth
        setNextXLoop m tileTypes left vx startY spriteYMax innerFuel fuel
          minX' startX' (m.getTileIndexFromPixel startX' startY)
    else (false, minX)

/-- Source `setNextX(sprite, tileTypes)` (lines 849-896): per-axis swept
movement.  `left` is `vx > 0 ? false : true`; the walk starts one pixel
beyond the hit-box edge in the direction of travel
(`sprite.x + hitBox.x - 1` leftward, `sprite.x + hitBox.x2 + 1`
rightward) and `minX` starts at `startX` leftward, `0` rightward.  After
the loop, `vx >= minX` (leftward) or `vx < minX` (rightward) means no
obstacle within reach: the sprite advances by `vx` and the method returns
false; otherwise it advances by `minX` and returns true.  The two fuel
arguments bound the loops as described on `setNextXLoop` / `scanColumn`. -/
def setNextX (m : Map) (sprite : Obj) (tileTypes : Nat)
    (outerFuel innerFuel : Nat) : Obj × Bool :=
  let left := ¬ (sprite.vx > 0)
  let spriteYMax := sprite.y + sprite.hby2
  let startX := if left then sprite.x + sprite.hbx - 1 else sprite.x + sprite.hbx2 + 1
  let startY := sprite.y + sprite.hby
  let tp := m.getTileIndexFromPixel startX startY
  let minX0 := if left then startX else 0
  let res := setNextXLoop m tileTypes left sprite.vx startY spriteYMax innerFuel
    outerFuel minX0 startX tp
  let minX := res.2
  if (left ∧ minX ≤ sprite.vx) ∨ (left = false ∧ sprite.vx < minX) then
    ({ sprite with x := sprite.x + sprite.vx }, false)
  else
    ({ sprite with x := sprite.x + minX }, true)

/-- Source `getTriggersForBox(x, y, x2, y2)` (lines 753-774): collect, for
columns `pos1.x .. pos2.x` (outer) and rows `pos1.y .. pos3.y` (inner),
every stored trigger at key `j * numCols + i` whose `triggered` flag is
still false.  The source pushes the trigger objects; the embedding pairs
each with its key, the shallow stand-in for object identity. -/
def getTriggersForBox (m : Map) (x y x2 y2 : Int) : List (Int × Trigger) :=
  let pos1 := m.getTileIndexFromPixel x y
  let pos2 := m.getTileIndexFromPixel x2 y
  let pos3 := m.getTileIndexFromPixel x y2
  (Map.intRange pos1.x pos2.x).flatMap fun i =>
    (Map.intRange pos1.y pos3.y).filterMap fun j =>
      match m.triggers (j * m.numCols + i) with
      | some trigger => if trigger.triggered = false
          then some (j * m.numCols + i, trigger) else none
      | none => none

/-- One step of the `triggers.forEach` in `checkForTriggers`:
`trigger.triggered = !this.mapEvent.handleEvent(trigger)`.  The external
`MapEvent.handleEvent` collaborator is the `handler` parameter; the
trigger object is read back from the state so that aliasing writes stay
sequential, as in the mutable source. -/
def dispatchTrigger (handler : Trigger → Bool) (m : Map) (p : Int × Trigger) : Map :=
  match m.triggers p.1 with
  | some tcur =>
    { m with triggers := fun k =>
        if k = p.1 then some { tcur with triggered := !(handler tcur) } else m.triggers k }
  | none => m

/-- Source `checkForTriggers()` (lines 581-588): build the master's
hit-box rectangle in world pixels, collect the untriggered triggers it
covers and dispatch each to the event handler, storing the negated result
as the new `triggered` flag.  The source only calls this when
`masterObject` is set (line 499); with no master it is a no-op here. -/
def checkForTriggers (handler : Trigger → Bool) (m : Map) : Map :=
  match m.masterObject with
  | none => m
  | some mo =>
    (m.getTriggersForBox (mo.x + mo.hbx) (mo.y + mo.hby)
        (mo.x + mo.hbx2) (mo.y + mo.hby2)).foldl (dispatchTrigger handler) m

/-- Source `addObject(obj, layerIndex = 0)` (lines 350-386): append to the
ordered object list; when `obj.master` is set, `setMasterObject` stores
the master reference and repositions it to the map start position (the
JS object is shared, so the repositioned entity is what every list
holds); insert into the collision-group list selected by `collideGroup`
(1 = enemies, 2 = friendBullets, 3 = platforms).  Image/scene wiring goes
to external collaborators. -/
def addObject (m : Map) (obj : Obj) : Map :=
  let placed := if obj.master then { obj with x := m.startX, y := m.startY } else obj
  let m1 := { m with objects := m.objects ++ [placed] }
  let m2 := if placed.master then { m1 with masterObject := some placed } else m1
  if placed.collideGroup = 1 then { m2 with enemies := m2.enemies ++ [placed] }
  else if placed.collideGroup = 2 then { m2 with friendBullets := m2.friendBullets ++ [placed] }
  else if placed.collideGroup = 3 then { m2 with platforms := m2.platforms ++ [placed] }
  else m2

/-- Source `removeObject(drawable)` (lines 1424-1438): `indexOf` +
`splice(foundIndex, 1)` removes the first occurrence from `objects`;
then the first occurrence from `enemies`, or else from `friendBullets`.
No other list is touched. -/
def removeObject (m : Map) (drawable : Obj) : Map :=
  let m1 := { m with objects := m.objects.erase drawable }
  if drawable ∈ m1.enemies then { m1 with enemies := m1.enemies.erase drawable }
  else if drawable ∈ m1.friendBullets then
    { m1 with friendBullets := m1.friendBullets.erase drawable }
  else m1

/-- Source `addNewObjectsFromWindow(windowNum)` (lines 1179-1195): when the
window exists and `displayed === false`, set `displayed` and add every
item through `addObject` (instantiation by the external pool factory; the
`mapEvent.addItem` registration is an external side effect). -/
def addNewObjectsFromWindow (windowNum : Int) (m : Map) : Map :=
  match m.windows windowNum with
  | none => m
  | some w =>
    if w.displayed = false then
      let m1 := { m with windows := fun k =>
        if k = windowNum then some { w with displayed := true } else m.windows k }
      w.items.foldl (fun s o => s.addObject o) m1
    else m

/-- Window indices visited by `checkVisibleWindows()` (lines 1207-1219):
`startIndex = (|viewportY| / viewportH * maxWinX) | 0` (floating-point
product before truncation, hence `jsTrunc` over `Rat`), the vertical loop
`for (i = startIndex; i <= max; i += maxWinX)` where
`max = viewportY % viewportH ? startIndex + maxWinX : startIndex`, and
for each `i` additionally `i + 1` when `viewportX % viewportW !== 0`.
The list form spells out the loop iterations for a positive `maxWinX`
step (with `maxWinX <= 0` the JS loop would not terminate). -/
def windowIndices (m : Map) : List Int :=
  let startIndex := jsTrunc (((m.viewportY.natAbs : Rat) / (m.viewportH : Rat)) * (m.maxWinX : Rat))
  let vertical := if m.viewportY.tmod m.viewportH ≠ 0
    then [startIndex, startIndex + m.maxWinX] else [startIndex]
  vertical.flatMap fun i =>
    if m.viewportX.tmod m.viewportW ≠ 0 then [i, i + 1] else [i]

/-- Source `checkVisibleWindows()`: run `addNewObjectsFromWindow` on every
visited window index. -/
def checkVisibleWindows (m : Map) : Map :=
  (windowIndices m).foldl (fun s i => addNewObjectsFromWindow i s) m

end Map

/-
Concrete instances used by witnesses and counterexamples.
-/

/-- Map of the C1 scenario: 4x4 grid of 10x10 tiles, all air except the
Wall behavior at cell (col 2, row 1) = flat index 6. -/
def wallMap4 : Map :=
  { width := 40, height := 40, tileWidth := 10, tileHeight := 10,
    numCols := 4, numRows := 4,
    map := List.replicate 16 0,
    tileBehaviors := (List.replicate 16 0).set 6 TileTypeWALL,
    viewportX := 0, viewportY := 0, viewportW := 40, viewportH := 40,
    xMax := 0, yMax := 0 }

/-- Entity of the C1 scenario: position (0, 10), vx = 25, 10x10 hit-box
(hit-box height 10: inclusive pixel rows 10..19, exactly tile row 1). -/
def scenarioSprite : Obj :=
  { id := 0, x := 0, y := 10, vx := 25, hbx := 0, hby := 0, hbx2 := 9, hby2 := 9 }

/-- 2x2 grid, 10x10 tiles, behavior 7 at cell (1,0) (index 1) and at cell
(0,1) (index 2): distinguishes row-major from column-major scan order. -/
def gridMap2 : Map :=
  { width := 20, height := 20, tileWidth := 10, tileHeight := 10,
    numCols := 2, numRows := 2,
    map := List.replicate 4 0,
    tileBehaviors := [0, 7, 7, 0],
    viewportX := 0, viewportY := 0, viewportW := 20, viewportH := 20,
    xMax := 0, yMax := 0 }

/-- 2x2 grid of 10x10 tiles with both planes zeroed. -/
def zeroMap2 : Map :=
  { width := 20, height := 20, tileWidth := 10, tileHeight := 10,
    numCols := 2, numRows := 2,
    map := List.replicate 4 0,
    tileBehaviors := List.replicate 4 0,
    viewportX := 0, viewportY := 0, viewportW := 20, viewportH := 20,
    xMax := 0, yMax := 0 }

/-- 4x4 grid with the Wall behavior at cell (col 0, row 1) = flat index 4:
the cell that an out-of-range pixel query at x = -5, y = 10 aliases. -/
def aliasMap4 : Map :=
  { wallMap4 with tileBehaviors := (List.replicate 16 0).set 4 TileTypeWALL }

/-- Scrollable map state: 80-pixel-wide viewport over a 120-pixel world
(xMax = 40, yMax = 30), idle at the origin. -/
def scrollMap : Map :=
  { wallMap4 with viewportW := 80, viewportH := 70, xMax := 40, yMax := 30,
                  duration := 800 }

/-- Platform-group entity (collideGroup 3) for the registry claims. -/
def platformObj : Obj := { id := 1, collideGroup := 3 }

/-- Enemy-group entity (collideGroup 1) for the registry claims. -/
def enemyObj : Obj := { id := 2, collideGroup := 1 }

/-- Master entity for the trigger claims: sits at the origin with a 5x5
hit-box covering tile (0,0). -/
def triggerMaster : Obj := { id := 9, hbx2 := 5, hby2 := 5 }

/-- Map with one untriggered trigger (payload 42) at tile index 0 and
`triggerMaster` as master object. -/
def triggerMap : Map :=
  { wallMap4 with
    triggers := fun k => if k = 0 then some ⟨false, 42⟩ else none,
    masterObject := some triggerMaster }

/-- Map with one unpopulated window (index 0) holding a single item, and
maxWinX = 1, used for the window-population claims. -/
def windowMap : Map :=
  { wallMap4 with
    windows := fun k => if k = 0 then some ⟨false, [{ id := 5 }]⟩ else none,
    maxWinX := 1 }

/-- A window index is spent for spawning: either no window is stored
there, or the stored window is already flagged displayed. -/
def Map.windowDone (m : Map) (i : Int) : Prop :=
  m.windows i = none ∨ ∃ w, m.windows i = some w ∧ w.displayed = true

/-- Linear easing curve, the source default (`FX.getEasing('linear')`). -/
def linearEase : EasingFn := fun t _ _ _ _ => t

/-- Map state with a scroll in flight toward the stored target (-40, 0),
started at time 0. -/
def scrollMoving : Map :=
  { scrollMap with moving := true, viewportTargetX := -40, viewportTargetY := 0,
                   viewportSpeedX := -40, viewportStartX := 0, startMoveTime := 0 }

/-
Helper lemmas shared by the scroll-controller theorems.
-/

theorem lowClamp_eq_max (x a : Int) : (if x < -a then -a else x) = max x (-a) := by
  rcases le_or_lt (-a) x with h | h
  · rw [if_neg (not_lt.mpr h), max_eq_left h]
  · rw [if_pos h, max_eq_right (le_of_lt h)]

theorem upperSnap_eq_min (t : Int) : (if t > 0 then 0 else t) = min 0 t := by
  rcases le_or_lt t 0 with h | h
  · rw [if_neg (not_lt.mpr h), min_eq_right h]
  · rw [if_pos h, min_eq_left (le_of_lt h)]

/-- Full characterization of `moveTo` from an idle controller: a scroll
starts exactly when the lower-clamped-only target differs from the
current position, and then the stored target is the fully clamped value
while the speed is derived from the lower-clamped-only value. -/
theorem moveTo_spec (m : Map) (now x y : Int) (h : m.moving = false) :
    ((m.moveTo now x y).moving = true ↔
      (m.viewportX ≠ max x (-m.xMax) ∨ m.viewportY ≠ max y (-m.yMax))) ∧
    ((m.moveTo now x y).moving = true →
      (m.moveTo now x y).viewportTargetX = min 0 (max x (-m.xMax)) ∧
      (m.moveTo now x y).viewportTargetY = min 0 (max y (-m.yMax)) ∧
      (m.moveTo now x y).viewportSpeedX = max x (-m.xMax) - m.viewportX ∧
      (m.moveTo now x y).viewportSpeedY = max y (-m.yMax) - m.viewportY ∧
      (m.moveTo now x y).startMoveTime = now ∧
      (m.moveTo now x y).duration = m.duration) := by
  by_cases hc : m.viewportX ≠ (if x < -m.xMax then -m.xMax else x) ∨
      m.viewportY ≠ (if y < -m.yMax then -m.yMax else y)
  · have : m.moveTo now x y =
        { m with
          viewportTargetX := if (if x < -m.xMax then -m.xMax else x) > 0 then 0
            else (if x < -m.xMax then -m.xMax else x)
          viewportTargetY := if (if y < -m.yMax then -m.yMax else y) > 0 then 0
            else (if y < -m.yMax then -m.yMax else y)
          startMoveTime := now
          viewportSpeedX := (if x < -m.xMax then -m.xMax else x) - m.viewportX
          viewportSpeedY := (if y < -m.yMax then -m.yMax else y) - m.viewportY
          viewportStartX := m.viewportX
          viewportStartY := m.viewportY
          moving := true } := by
      unfold Map.moveTo
      rw [if_pos ⟨h, hc⟩]
    rw [this]
    constructor
    · simpa [lowClamp_eq_max] using hc
    · intro _
      refine ⟨?_, ?_, ?_, ?_, rfl, rfl⟩
      · show (if (if x < -m.xMax then -m.xMax else x) > 0 then 0
            else (if x < -m.xMax then -m.xMax else x)) = min 0 (max x (-m.xMax))
        rw [lowClamp_eq_max, upperSnap_eq_min]
      · show (if (if y < -m.yMax then -m.yMax else y) > 0 then 0
            else (if y < -m.yMax then -m.yMax else y)) = min 0 (max y (-m.yMax))
        rw [lowClamp_eq_max, upperSnap_eq_min]
      · show (if x < -m.xMax then -m.xMax else x) - m.viewportX = max x (-m.xMax) - m.viewportX
        rw [lowClamp_eq_max]
      · show (if y < -m.yMax then -m.yMax else y) - m.viewportY = max y (-m.yMax) - m.viewportY
        rw [lowClamp_eq_max]
  · have hm : m.moveTo now x y = m := by
      unfold Map.moveTo
      rw [if_neg]
      intro hcontra
      exact hc hcontra.2
    have hdisj : ¬ (m.viewportX ≠ max x (-m.xMax) ∨ m.viewportY ≠ max y (-m.yMax)) := by
      simpa [lowClamp_eq_max] using hc
    rw [hm, h]
    constructor
    · simp [hdisj]
    · intro hfalse
      exact absurd hfalse (by simp)

/-- The elapsed-time-reached branch of the update scroll step: snap to the
stored target and go idle, for every easing function. -/
theorem updateScroll_snap (m : Map) (easing : EasingFn) (ts : Int)
    (hm : m.moving = true) (ht : m.duration ≤ ts - m.startMoveTime) :
    m.updateScroll easing ts =
      { m with moving := false, viewportX := m.viewportTargetX,
               viewportY := m.viewportTargetY, isDirty := true } := by
  unfold Map.updateScroll
  rw [hm]
  simp [ht]

/-- The mid-flight branch of the update scroll step keeps the scroll
bookkeeping (target, clock, duration, moving flag) unchanged. -/
theorem updateScroll_mid (m : Map) (easing : EasingFn) (ts : Int)
    (hm : m.moving = true) (ht : ts - m.startMoveTime < m.duration) :
    (m.updateScroll easing ts).moving = true ∧
    (m.updateScroll easing ts).viewportTargetX = m.viewportTargetX ∧
    (m.updateScroll easing ts).viewportTargetY = m.viewportTargetY ∧
    (m.updateScroll easing ts).startMoveTime = m.startMoveTime ∧
    (m.updateScroll easing ts).duration = m.duration := by
  unfold Map.updateScroll
  rw [hm]
  simp [not_le.mpr ht, hm]

/-
Claim theorems.
-/

/-- Claim C1, counterexample.  In the claimed scenario (4x4 grid,
tileWidth = tileHeight = 10, Wall at cell (2,1), entity with a
height-10 hit-box at (0,10), vx = 25), `setNextX` does not resolve the
entity's x position to 20: the computed position is 10.  The fuel
arguments 8/8 exceed the number of loop iterations, so the embedded loop
runs to its real exit. -/
theorem setNextX_scenario_not_twenty :
    ¬ (((wallMap4.setNextX scenarioSprite TileTypeWALL 8 8).2 = true) ∧
       ((wallMap4.setNextX scenarioSprite TileTypeWALL 8 8).1.x = 20)) := by
  decide

/-- Claim C1, amended.  Same scenario: `setNextX` reports a collision and
resolves the entity's x position to 10, so the 10-pixel-wide hit-box ends
at pixel 19, flush against the wall column starting at pixel 20 — the
resolved position is 10, not 20 and not 25. -/
theorem setNextX_scenario_flush_at_ten :
    wallMap4.setNextX scenarioSprite TileTypeWALL 8 8 =
      ({ scenarioSprite with x := 10 }, true) := by
  decide

/-- The inner row loop of `hitObjectTest` is a first-match search over the
row list. -/
theorem rowScan_eq_find (m : Map) (types : Nat) (i : Int) (js : List Int) :
    Map.rowScan m types i js =
      (js.find? fun j => m.behaviorAt (j * m.numCols + i) == some types).map
        fun j => ⟨i, j, i * m.tileWidth, j * m.tileHeight⟩ := by
  induction js with
  | nil => rfl
  | cons j js ih =>
    by_cases h : m.behaviorAt (j * m.numCols + i) = some types
    · simp [Map.rowScan, h]
    · simp [Map.rowScan, h, ih]

/-- The double loop of `hitObjectTest` is a first-match search over the
column-major cell enumeration. -/
theorem colScan_eq_firstHit (m : Map) (types : Nat) (js is : List Int) :
    Map.colScan m types js is =
      m.firstHitIn (is.flatMap fun i => js.map fun j => (i, j)) types := by
  induction is with
  | nil => rfl
  | cons i is ih =>
    rw [Map.colScan, rowScan_eq_find, ih]
    unfold Map.firstHitIn
    rw [List.flatMap_cons, List.find?_append, List.find?_map]
    have hcomp :
        ((fun c : Int × Int => m.behaviorAt (c.2 * m.numCols + c.1) == some types) ∘
          fun j : Int => (i, j)) =
        fun j : Int => m.behaviorAt (j * m.numCols + i) == some types := rfl
    rw [hcomp]
    rcases hfind : js.find? fun j => m.behaviorAt (j * m.numCols + i) == some types with
      _ | j
    · rfl
    · rfl

/-- Claim C2, amended.  `hitObjectTest` returns the first cell of the
scanned rectangle carrying the requested behavior code under the order
the code implements: left-to-right across columns, then top-to-bottom
within a column (columns before rows) — or the no-match value when no
scanned cell carries it.  The scanned cells are
`[x/tileWidth .. x2/tileWidth] × [y/tileHeight .. y2/tileHeight]`. -/
theorem hitObjectTest_first_match_col_major (m : Map) (x y x2 y2 : Int) (types : Nat) :
    m.hitObjectTest x y x2 y2 types =
      m.firstHitIn (Map.hitCellsColMajor m x y x2 y2) types := by
  unfold Map.hitObjectTest Map.hitCellsColMajor Map.getTileIndexFromPixel
  exact colScan_eq_firstHit m types _ _

/-- Claim C2, counterexample.  On a 2x2 grid with behavior 7 at cells
(1,0) and (0,1) and the query rectangle (0,0)-(19,19), the code returns
cell (0,1) — the first match scanning columns before rows — while the
claimed tie-break (top-to-bottom, then left-to-right: rows before
columns) would select cell (1,0). -/
theorem hitObjectTest_not_row_major :
    gridMap2.hitObjectTest 0 0 19 19 7 = some ⟨0, 1, 0, 10⟩ ∧
    gridMap2.firstHitIn (Map.hitCellsRowMajor gridMap2 0 0 19 19) 7 = some ⟨1, 0, 10, 0⟩ ∧
    gridMap2.hitObjectTest 0 0 19 19 7 ≠
      gridMap2.firstHitIn (Map.hitCellsRowMajor gridMap2 0 0 19 19) 7 := by
  decide

/-- Claim C9, code bug, evaluated at the failing input.  An object added
under the platform collision group (collideGroup 3) is inserted into
`platforms` by `addObject`, but `removeObject` — whose own doc comment
says the object is automatically removed from collision lists — only
searches `objects`, `enemies` and `friendBullets`: after removal the
object is gone from the ordered list yet still sits in `platforms`. -/
theorem removeObject_leaves_platforms :
    ((wallMap4.addObject platformObj).removeObject platformObj).objects = [] ∧
    ((wallMap4.addObject platformObj).removeObject platformObj).platforms = [platformObj] ∧
    ((wallMap4.addObject enemyObj).removeObject enemyObj).enemies = [] := by
  decide

/-- Reading back the byte just written by `setByte`, for an in-range
index. -/
theorem setByte_get_self (l : List Nat) (idx v : Int)
    (h0 : 0 ≤ idx) (hlt : idx < (l.length : Int)) :
    (Map.setByte l idx v)[idx.toNat]? = some (v.toNat % 256) := by
  unfold Map.setByte
  rw [if_pos ⟨h0, by omega⟩]
  exact List.getElem?_set_self (by omega)

/-- A `setByte` write leaves every other non-negative index unchanged. -/
theorem setByte_get_other (l : List Nat) (idx idx' v : Int)
    (h0 : 0 ≤ idx) (h0' : 0 ≤ idx') (hne : idx ≠ idx') :
    (Map.setByte l idx v)[idx'.toNat]? = l[idx'.toNat]? := by
  unfold Map.setByte
  by_cases hin : 0 ≤ idx ∧ idx.toNat < l.length
  · rw [if_pos hin]
    exact List.getElem?_set_ne (by omega)
  · rw [if_neg hin]

/-- Distinct in-range cells have distinct row-major flat indices. -/
theorem cellIndex_inj (N c r col row : Int) (hc0 : 0 ≤ c) (hc : c < N)
    (hcol0 : 0 ≤ col) (hcol : col < N) (hne : c ≠ col ∨ r ≠ row) :
    r * N + c ≠ row * N + col := by
  intro heq
  have hd : (r - row) * N = col - c := by linear_combination heq
  rcases lt_trichotomy r row with h | h | h
  · have h1 : r - row ≤ -1 := by omega
    have h2 : (r - row) * N ≤ -N := by nlinarith
    omega
  · rw [h] at hd
    simp at hd
    rcases hne with hx | hx
    · omega
    · exact hx h
  · have h1 : 1 ≤ r - row := by omega
    have h2 : N ≤ (r - row) * N := by nlinarith
    omega

/-- Claim C6, amended.  For all valid (col,row) and every behavior value
in the byte range 0..255 (a `Uint8Array` stores modulo 256, so larger
values wrap — see the counterexample), after
`updateTile(col,row,tileNum,B)` the behavior read back at (col,row)
equals B, and every other cell of both the visual plane and the behavior
plane is unchanged. -/
theorem updateTile_behavior_readback (m : Map) (col row tileNum B : Int)
    (hc0 : 0 ≤ col) (hc : col < m.numCols) (hr0 : 0 ≤ row) (hr : row < m.numRows)
    (hlb : (m.tileBehaviors.length : Int) = m.numCols * m.numRows)
    (hB0 : 0 ≤ B) (hB : B ≤ 255) :
    (m.updateTile col row tileNum B).getTileBehaviorAtIndex col row = some B.toNat ∧
    (∀ c r : Int, 0 ≤ c → c < m.numCols → 0 ≤ r → r < m.numRows →
      (c ≠ col ∨ r ≠ row) →
      (m.updateTile col row tileNum B).getTileBehaviorAtIndex c r =
        m.getTileBehaviorAtIndex c r ∧
      (m.updateTile col row tileNum B).visualAt (r * m.numCols + c) =
        m.visualAt (r * m.numCols + c)) := by
  have hN : 0 < m.numCols := lt_of_le_of_lt hc0 hc
  have hBgt : B > -1 := by omega
  have htb : (m.updateTile col row tileNum B).tileBehaviors =
      Map.setByte m.tileBehaviors (row * m.numCols + col) B := by
    unfold Map.updateTile
    by_cases ht : tileNum > -1 <;> simp [ht, hBgt]
  have hnc : (m.updateTile col row tileNum B).numCols = m.numCols := by
    unfold Map.updateTile
    by_cases ht : tileNum > -1 <;> simp [ht, hBgt]
  have hmv : (m.updateTile col row tileNum B).map =
      (if tileNum > -1 then Map.setByte m.map (row * m.numCols + col) tileNum else m.map) := by
    unfold Map.updateTile
    by_cases ht : tileNum > -1 <;> simp [ht, hBgt]
  have hpos0 : 0 ≤ row * m.numCols + col := by
    have := mul_nonneg hr0 (le_of_lt hN)
    omega
  have hposlen : row * m.numCols + col < (m.tileBehaviors.length : Int) := by
    rw [hlb]
    nlinarith
  constructor
  · unfold Map.getTileBehaviorAtIndex Map.behaviorAt
    rw [hnc, htb]
    have hcomm : m.numCols * row + col = row * m.numCols + col := by ring
    rw [hcomm, if_pos hpos0, setByte_get_self m.tileBehaviors _ B hpos0 hposlen]
    have : B.toNat % 256 = B.toNat := Nat.mod_eq_of_lt (by omega)
    rw [this]
  · intro c r hcc0 hcc hrr0 hrr hne
    have hpos0' : 0 ≤ r * m.numCols + c := by
      have := mul_nonneg hrr0 (le_of_lt hN)
      omega
    have hneidx : row * m.numCols + col ≠ r * m.numCols + c :=
      (cellIndex_inj m.numCols c r col row hcc0 hcc hc0 hc hne).symm
    constructor
    · unfold Map.getTileBehaviorAtIndex Map.behaviorAt
      rw [hnc, htb]
      have hcomm : m.numCols * r + c = r * m.numCols + c := by ring
      rw [hcomm, if_pos hpos0', if_pos hpos0',
        setByte_get_other m.tileBehaviors _ _ B hpos0 hpos0' hneidx]
    · unfold Map.visualAt
      rw [hmv, if_pos hpos0', if_pos hpos0']
      by_cases ht : tileNum > -1
      · rw [if_pos ht, setByte_get_other m.map _ _ tileNum hpos0 hpos0' hneidx]
      · rw [if_neg ht]

/-- Witness for `updateTile_behavior_readback`: writing behavior 7 at cell
(0, 1) of the zeroed 2x2 map. -/
theorem updateTile_behavior_readback_witness :
    ((0 : Int) ≤ 0 ∧ 0 < zeroMap2.numCols ∧ (0 : Int) ≤ 1 ∧ 1 < zeroMap2.numRows ∧
     (zeroMap2.tileBehaviors.length : Int) = zeroMap2.numCols * zeroMap2.numRows ∧
     (0 : Int) ≤ 7 ∧ (7 : Int) ≤ 255) ∧
    ((zeroMap2.updateTile 0 1 (-1) 7).getTileBehaviorAtIndex 0 1 = some (Int.toNat 7) ∧
     (∀ c r : Int, 0 ≤ c → c < zeroMap2.numCols → 0 ≤ r → r < zeroMap2.numRows →
        (c ≠ 0 ∨ r ≠ 1) →
        (zeroMap2.updateTile 0 1 (-1) 7).getTileBehaviorAtIndex c r =
          zeroMap2.getTileBehaviorAtIndex c r ∧
        (zeroMap2.updateTile 0 1 (-1) 7).visualAt (r * zeroMap2.numCols + c) =
          zeroMap2.visualAt (r * zeroMap2.numCols + c))) :=
  ⟨⟨by decide, by decide, by decide, by decide, by decide, by decide, by decide⟩,
   updateTile_behavior_readback zeroMap2 0 1 (-1) 7 (by decide) (by decide) (by decide)
     (by decide) (by decide) (by decide) (by decide)⟩

/-- Claim C6, counterexample.  `updateTile` stores behavior bytes through
a `Uint8Array`, which keeps values modulo 256: writing B = 256 at cell
(0,0) reads back as 0, not 256, so the claim does not hold for every
behavior value B > -1. -/
theorem updateTile_byte_wraps :
    (zeroMap2.updateTile 0 0 (-1) 256).getTileBehaviorAtIndex 0 0 = some 0 ∧
    (some 0 : Option Nat) ≠ some 256 := by
  decide

/-- Claim C10, counterexample.  With the Wall behavior at cell (0,1), the
pixel query (-5, 10) lies outside `[0,width)` yet `fallTest` returns
true, and the degenerate rectangle query at the same point returns a
match: truncation toward zero maps x = -5 to column 0, so the
out-of-range read aliases the in-range cell (0,1) instead of reporting
no collision. -/
theorem fallTest_out_of_range_spurious_hit :
    aliasMap4.fallTest (-5) 10 = true ∧
    aliasMap4.hitObjectTest (-5) 10 (-5) 10 TileTypeWALL ≠ none := by
  decide

/-- Claim C3, counterexample.  With the viewport idle at (0, 0) and
xMax = 40, the request `moveTo(5, 0)` has a target x > 0 while the
viewport already sits at 0 — yet a scroll starts (`moving` becomes true)
with positive horizontal speed 5, because the equality check and the
speed computation use the target before it is clamped from above. -/
theorem moveTo_positive_target_starts_scroll :
    (scrollMap.moveTo 0 5 0).moving = true ∧
    (scrollMap.moveTo 0 5 0).viewportSpeedX = 5 ∧
    ¬ ((5 : Int) ≤ 0) := by
  decide

/-- Claim C3, amended.  From an idle controller, `moveTo` clamps only the
lower bound of each coordinate before the no-op/equality comparison: a
scroll starts exactly when the lower-clamped-only target differs from the
current viewport position, and then the per-axis speed is derived from
the lower-clamped-only target while the stored target additionally snaps
above-zero values to 0 — so a request with x > 0 at viewport 0 does
start a scroll with positive speed. -/
theorem moveTo_lower_clamp_only (m : Map) (now x y : Int) (h : m.moving = false) :
    ((m.moveTo now x y).moving = true ↔
      (m.viewportX ≠ max x (-m.xMax) ∨ m.viewportY ≠ max y (-m.yMax))) ∧
    ((m.moveTo now x y).moving = true →
      (m.moveTo now x y).viewportTargetX = min 0 (max x (-m.xMax)) ∧
      (m.moveTo now x y).viewportTargetY = min 0 (max y (-m.yMax)) ∧
      (m.moveTo now x y).viewportSpeedX = max x (-m.xMax) - m.viewportX ∧
      (m.moveTo now x y).viewportSpeedY = max y (-m.yMax) - m.viewportY) := by
  obtain ⟨hiff, hfields⟩ := moveTo_spec m now x y h
  exact ⟨hiff, fun ha => ⟨(hfields ha).1, (hfields ha).2.1, (hfields ha).2.2.1,
    (hfields ha).2.2.2.1⟩⟩

/-- Witness for `moveTo_lower_clamp_only` at the concrete request
`moveTo(5, 0)` on the idle scrollable map. -/
theorem moveTo_lower_clamp_only_witness :
    scrollMap.moving = false ∧
    (((scrollMap.moveTo 0 5 0).moving = true ↔
        (scrollMap.viewportX ≠ max 5 (-scrollMap.xMax) ∨
         scrollMap.viewportY ≠ max 0 (-scrollMap.yMax))) ∧
     ((scrollMap.moveTo 0 5 0).moving = true →
        (scrollMap.moveTo 0 5 0).viewportTargetX = min 0 (max 5 (-scrollMap.xMax)) ∧
        (scrollMap.moveTo 0 5 0).viewportTargetY = min 0 (max 0 (-scrollMap.yMax)) ∧
        (scrollMap.moveTo 0 5 0).viewportSpeedX = max 5 (-scrollMap.xMax) - scrollMap.viewportX ∧
        (scrollMap.moveTo 0 5 0).viewportSpeedY = max 0 (-scrollMap.yMax) - scrollMap.viewportY)) :=
  ⟨by decide, moveTo_lower_clamp_only scrollMap 0 5 0 (by decide)⟩

/-- Claim C5, confirmed.  Scroll convergence, split in the three facts
that cover any frame sequence: (a) whenever a scroll is in flight and the
elapsed time has reached the duration, the update snaps the viewport
exactly to the stored target and goes idle, for every easing function;
(b) an accepted `moveTo` stores exactly the fully clamped target
(`min 0 (max x (-xMax))`, which is -xMax whenever x < -xMax ≤ 0) and
starts its clock at the request time; (c) mid-flight updates never change
the stored target, clock, duration or moving flag, so the first update
whose elapsed time reaches the duration is governed by (a) with the
target stored by (b). -/
theorem scroll_convergence :
    (∀ (m : Map) (easing : EasingFn) (ts : Int),
      m.moving = true → m.duration ≤ ts - m.startMoveTime →
        m.updateScroll easing ts =
          { m with moving := false, viewportX := m.viewportTargetX,
                   viewportY := m.viewportTargetY, isDirty := true }) ∧
    (∀ (m : Map) (now x y : Int), m.moving = false → (m.moveTo now x y).moving = true →
        (m.moveTo now x y).viewportTargetX = min 0 (max x (-m.xMax)) ∧
        (m.moveTo now x y).viewportTargetY = min 0 (max y (-m.yMax)) ∧
        (m.moveTo now x y).startMoveTime = now ∧
        (m.moveTo now x y).duration = m.duration) ∧
    (∀ (m : Map) (easing : EasingFn) (ts : Int),
      m.moving = true → ts - m.startMoveTime < m.duration →
        (m.updateScroll easing ts).moving = true ∧
        (m.updateScroll easing ts).viewportTargetX = m.viewportTargetX ∧
        (m.updateScroll easing ts).viewportTargetY = m.viewportTargetY ∧
        (m.updateScroll easing ts).startMoveTime = m.startMoveTime ∧
        (m.updateScroll easing ts).duration = m.duration) := by
  refine ⟨updateScroll_snap, ?_, updateScroll_mid⟩
  intro m now x y h ha
  obtain ⟨_, hfields⟩ := moveTo_spec m now x y h
  exact ⟨(hfields ha).1, (hfields ha).2.1, (hfields ha).2.2.2.2.1,
    (hfields ha).2.2.2.2.2⟩

/-- Witness for `scroll_convergence` instantiating all three parts: the
in-flight state `scrollMoving` snapped at time 900 (past its 800ms
duration) under the linear easing, the accepted request `moveTo(-100, 0)`
on the idle map, and a mid-flight update at time 100. -/
theorem scroll_convergence_witness :
    (scrollMoving.moving = true ∧ scrollMoving.duration ≤ 900 - scrollMoving.startMoveTime ∧
      scrollMoving.updateScroll linearEase 900 =
        { scrollMoving with moving := false, viewportX := scrollMoving.viewportTargetX,
                            viewportY := scrollMoving.viewportTargetY, isDirty := true }) ∧
    (scrollMap.moving = false ∧ (scrollMap.moveTo 0 (-100) 0).moving = true ∧
      ((scrollMap.moveTo 0 (-100) 0).viewportTargetX = min 0 (max (-100) (-scrollMap.xMax)) ∧
       (scrollMap.moveTo 0 (-100) 0).viewportTargetY = min 0 (max 0 (-scrollMap.yMax)) ∧
       (scrollMap.moveTo 0 (-100) 0).startMoveTime = 0 ∧
       (scrollMap.moveTo 0 (-100) 0).duration = scrollMap.duration)) ∧
    (100 - scrollMoving.startMoveTime < scrollMoving.duration ∧
      (scrollMoving.updateScroll linearEase 100).moving = true ∧
      (scrollMoving.updateScroll linearEase 100).viewportTargetX = scrollMoving.viewportTargetX ∧
      (scrollMoving.updateScroll linearEase 100).viewportTargetY = scrollMoving.viewportTargetY ∧
      (scrollMoving.updateScroll linearEase 100).startMoveTime = scrollMoving.startMoveTime ∧
      (scrollMoving.updateScroll linearEase 100).duration = scrollMoving.duration) :=
  ⟨⟨by decide, by decide, scroll_convergence.1 scrollMoving linearEase 900 (by decide) (by decide)⟩,
   ⟨by decide, by decide, scroll_convergence.2.1 scrollMap 0 (-100) 0 (by decide) (by decide)⟩,
   ⟨by decide, scroll_convergence.2.2 scrollMoving linearEase 100 (by decide) (by decide)⟩⟩

/-- Claim C4, amended.  What does hold of the clamping region: from an
idle controller, every accepted `moveTo` stores a scroll target inside
`[-xMax, 0] × [-yMax, 0]` (for non-negative bounds), and once the scroll
completes (any update at or past the duration, any easing) the viewport
position equals that target, hence lies inside the region.  The viewport
position itself is not re-clamped by construction, `setViewPort`,
`reset`, or mid-scroll interpolation. -/
theorem moveTo_target_and_completion_in_bounds (m : Map) (now x y : Int)
    (hx : 0 ≤ m.xMax) (hy : 0 ≤ m.yMax) (h : m.moving = false)
    (ha : (m.moveTo now x y).moving = true) :
    (-m.xMax ≤ (m.moveTo now x y).viewportTargetX ∧
     (m.moveTo now x y).viewportTargetX ≤ 0 ∧
     -m.yMax ≤ (m.moveTo now x y).viewportTargetY ∧
     (m.moveTo now x y).viewportTargetY ≤ 0) ∧
    (∀ (easing : EasingFn) (ts : Int), m.duration ≤ ts - now →
      -m.xMax ≤ ((m.moveTo now x y).updateScroll easing ts).viewportX ∧
      ((m.moveTo now x y).updateScroll easing ts).viewportX ≤ 0 ∧
      -m.yMax ≤ ((m.moveTo now x y).updateScroll easing ts).viewportY ∧
      ((m.moveTo now x y).updateScroll easing ts).viewportY ≤ 0) := by
  obtain ⟨_, hfields⟩ := moveTo_spec m now x y h
  obtain ⟨htx, hty, hsx, hsy, hst, hdur⟩ := hfields ha
  have hxb : -m.xMax ≤ (m.moveTo now x y).viewportTargetX ∧
      (m.moveTo now x y).viewportTargetX ≤ 0 := by
    rw [htx]
    constructor
    · exact le_min (by omega) (le_max_right x (-m.xMax))
    · exact min_le_left 0 _
  have hyb : -m.yMax ≤ (m.moveTo now x y).viewportTargetY ∧
      (m.moveTo now x y).viewportTargetY ≤ 0 := by
    rw [hty]
    constructor
    · exact le_min (by omega) (le_max_right y (-m.yMax))
    · exact min_le_left 0 _
  refine ⟨⟨hxb.1, hxb.2, hyb.1, hyb.2⟩, ?_⟩
  intro easing ts hts
  have hsnap := updateScroll_snap (m.moveTo now x y) easing ts ha (by rw [hst, hdur]; exact hts)
  rw [hsnap]
  exact ⟨hxb.1, hxb.2, hyb.1, hyb.2⟩

/-- Witness for `moveTo_target_and_completion_in_bounds` at the accepted
request `moveTo(-100, 5)` on the idle scrollable map. -/
theorem moveTo_target_and_completion_in_bounds_witness :
    (0 ≤ scrollMap.xMax ∧ 0 ≤ scrollMap.yMax ∧ scrollMap.moving = false ∧
     (scrollMap.moveTo 0 (-100) 5).moving = true) ∧
    ((-scrollMap.xMax ≤ (scrollMap.moveTo 0 (-100) 5).viewportTargetX ∧
      (scrollMap.moveTo 0 (-100) 5).viewportTargetX ≤ 0 ∧
      -scrollMap.yMax ≤ (scrollMap.moveTo 0 (-100) 5).viewportTargetY ∧
      (scrollMap.moveTo 0 (-100) 5).viewportTargetY ≤ 0) ∧
     (∀ (easing : EasingFn) (ts : Int), scrollMap.duration ≤ ts - 0 →
      -scrollMap.xMax ≤ ((scrollMap.moveTo 0 (-100) 5).updateScroll easing ts).viewportX ∧
      ((scrollMap.moveTo 0 (-100) 5).updateScroll easing ts).viewportX ≤ 0 ∧
      -scrollMap.yMax ≤ ((scrollMap.moveTo 0 (-100) 5).updateScroll easing ts).viewportY ∧
      ((scrollMap.moveTo 0 (-100) 5).updateScroll easing ts).viewportY ≤ 0)) :=
  ⟨⟨by decide, by decide, by decide, by decide⟩,
   moveTo_target_and_completion_in_bounds scrollMap 0 (-100) 5
     (by decide) (by decide) (by decide) (by decide)⟩

/-- Claim C4, counterexample.  `setViewPort` performs no boundary check:
on a map with xMax = 40 whose viewport is inside the clamped region,
`setViewPort(5, 3, 80, 70)` leaves the viewport at x = 5, outside
[-40, 0]. -/
theorem setViewPort_escapes_bounds :
    (scrollMap.setViewPort 5 3 80 70).viewportX = 5 ∧
    ¬ ((5 : Int) ≤ 0) := by
  decide

/-- Every element of the inclusive range `intRange a b` is at least `a`. -/
theorem intRange_lower (a b j : Int) (h : j ∈ Map.intRange a b) : a ≤ j := by
  unfold Map.intRange at h
  simp only [List.mem_map, List.mem_range] at h
  obtain ⟨n, _, hn⟩ := h
  omega

/-- A behavior lookup whose flat index lies at or past the end of the
behavior plane yields `none` (JS `undefined`). -/
theorem behaviorAt_past_plane (m : Map) (idx : Int)
    (h0 : 0 ≤ idx) (h1 : (m.tileBehaviors.length : Int) ≤ idx) :
    m.behaviorAt idx = none := by
  unfold Map.behaviorAt
  rw [if_pos h0]
  apply List.getElem?_eq_none
  omega

/-- Claim C10, amended.  Out-of-range pixel queries are not bounds-checked
and may alias in-range cells (see the counterexample); the "no spurious
hit" guarantee holds only where the computed flat index leaves the
behavior plane.  In particular, for every query below the map
(y ≥ height with x ≥ 0, on a well-formed grid) every behavior lookup the
query performs falls past the end of the plane and is `none`
(JS `undefined`), so `fallTest` returns false and `hitObjectTest`
returns the no-match value, whatever the rectangle's other corner and
the requested code. -/
theorem below_map_queries_no_match (m : Map) (x y x2 y2 : Int) (types : Nat)
    (hx : 0 ≤ x) (hy : m.height ≤ y) (h0 : 0 ≤ m.height)
    (htw : 0 < m.tileWidth) (hth : 0 < m.tileHeight)
    (hnc : 0 ≤ m.numCols) (hnr : m.numRows = m.height.tdiv m.tileHeight)
    (hlen : (m.tileBehaviors.length : Int) ≤ m.numCols * m.numRows) :
    m.fallTest x y = false ∧ m.hitObjectTest x y x2 y2 types = none := by
  have hpx : 0 ≤ x.tdiv m.tileWidth := by
    rw [Int.tdiv_eq_ediv hx (le_of_lt htw)]
    exact Int.ediv_nonneg hx (le_of_lt htw)
  have hpy : m.numRows ≤ y.tdiv m.tileHeight := by
    rw [hnr, Int.tdiv_eq_ediv h0 (le_of_lt hth),
      Int.tdiv_eq_ediv (le_trans h0 hy) (le_of_lt hth)]
    exact Int.ediv_le_ediv hth hy
  have hnr0 : 0 ≤ m.numRows := by
    rw [hnr]
    rw [Int.tdiv_eq_ediv h0 (le_of_lt hth)]
    exact Int.ediv_nonneg h0 (le_of_lt hth)
  have hcell : ∀ i j : Int, x.tdiv m.tileWidth ≤ i → y.tdiv m.tileHeight ≤ j →
      m.behaviorAt (j * m.numCols + i) = none := by
    intro i j hi hj
    have hj0 : 0 ≤ j := le_trans (le_trans hnr0 hpy) hj
    have hi0 : 0 ≤ i := le_trans hpx hi
    have hjc : 0 ≤ j * m.numCols := mul_nonneg hj0 hnc
    have hrc : m.numRows * m.numCols ≤ j * m.numCols :=
      mul_le_mul_of_nonneg_right (le_trans hpy hj) hnc
    have hcomm : m.numCols * m.numRows = m.numRows * m.numCols := mul_comm _ _
    apply behaviorAt_past_plane
    · linarith
    · linarith
  constructor
  · have hfall : m.behaviorAt (x.tdiv m.tileWidth + y.tdiv m.tileHeight * m.numCols) = none := by
      rw [add_comm]
      exact hcell _ _ le_rfl le_rfl
    unfold Map.fallTest Map.getTileIndexFromPixel
    simp only []
    rw [hfall]
    rfl
  · unfold Map.hitObjectTest Map.getTileIndexFromPixel
    simp only []
    rw [colScan_eq_firstHit]
    unfold Map.firstHitIn
    have hfind : ((Map.intRange (x.tdiv m.tileWidth) (x2.tdiv m.tileWidth)).flatMap fun i =>
        (Map.intRange (y.tdiv m.tileHeight) (y2.tdiv m.tileHeight)).map fun j => (i, j)).find?
          (fun c => m.behaviorAt (c.2 * m.numCols + c.1) == some types) = none := by
      rw [List.find?_eq_none]
      intro c hc
      simp only [List.mem_flatMap, List.mem_map] at hc
      obtain ⟨i, hi, j, hj, hcEq⟩ := hc
      subst hcEq
      simp [hcell i j (intRange_lower _ _ _ hi) (intRange_lower _ _ _ hj)]
    rw [hfind]
    rfl

/-- Triggers collected by `getTriggersForBox` are exactly stored,
not-yet-fired triggers at their keys. -/
theorem getTriggersForBox_consistent (m : Map) (x y x2 y2 : Int) (k : Int) (t : Trigger)
    (h : (k, t) ∈ m.getTriggersForBox x y x2 y2) :
    m.triggers k = some t ∧ t.triggered = false := by
  unfold Map.getTriggersForBox at h
  simp only [List.mem_flatMap, List.mem_filterMap] at h
  obtain ⟨i, hi, j, hj, hmatch⟩ := h
  rcases htr : m.triggers (j * m.numCols + i) with _ | tr
  · simp only [htr] at hmatch
    exact Option.noConfusion hmatch
  · simp only [htr] at hmatch
    by_cases hf : tr.triggered = false
    · rw [if_pos hf, Option.some.injEq, Prod.mk.injEq] at hmatch
      obtain ⟨hk, ht⟩ := hmatch
      subst hk
      subst ht
      exact ⟨htr, hf⟩
    · rw [if_neg hf] at hmatch
      cases hmatch

/-- Dispatching a batch of triggers does not touch triggers whose key is
outside the batch. -/
theorem dispatch_preserves_other (handler : Trigger → Bool) (pairs : List (Int × Trigger))
    (k : Int) (hk : k ∉ pairs.map Prod.fst) :
    ∀ m : Map, (pairs.foldl (Map.dispatchTrigger handler) m).triggers k = m.triggers k := by
  induction pairs with
  | nil => intro m; rfl
  | cons p ps ih =>
    intro m
    simp only [List.map_cons, List.mem_cons, not_or] at hk
    have hstep : (Map.dispatchTrigger handler m p).triggers k = m.triggers k := by
      unfold Map.dispatchTrigger
      rcases htr : m.triggers p.1 with _ | tc
      · rfl
      · simp only [htr]
        rw [if_neg hk.1]
    rw [List.foldl_cons]
    exact (ih hk.2 _).trans hstep

/-- Dispatching a batch of stored triggers with pairwise-distinct keys
rewrites each one's fired flag to the negated handler result. -/
theorem dispatch_result (handler : Trigger → Bool) (pairs : List (Int × Trigger)) :
    ∀ m : Map, (pairs.map Prod.fst).Nodup →
      (∀ p ∈ pairs, m.triggers p.1 = some p.2) →
      ∀ p ∈ pairs, (pairs.foldl (Map.dispatchTrigger handler) m).triggers p.1 =
        some { p.2 with triggered := !(handler p.2) } := by
  induction pairs with
  | nil => intro m _ _ p hp; cases hp
  | cons q ps ih =>
    intro m hnd hcons p hp
    have hq : m.triggers q.1 = some q.2 := hcons q (List.mem_cons_self q ps)
    have hstep : ∀ k : Int, (Map.dispatchTrigger handler m q).triggers k =
        if k = q.1 then some { q.2 with triggered := !(handler q.2) }
        else m.triggers k := by
      intro k
      unfold Map.dispatchTrigger
      simp only [hq]
    simp only [List.map_cons, List.nodup_cons] at hnd
    rw [List.foldl_cons]
    rcases List.mem_cons.mp hp with hpq | hps
    · subst hpq
      rw [dispatch_preserves_other handler ps p.1 hnd.1]
      rw [hstep p.1, if_pos rfl]
    · apply ih (Map.dispatchTrigger handler m q) hnd.2 _ p hps
      intro r hr
      rw [hstep r.1]
      have hrne : r.1 ≠ q.1 := by
        intro hEq
        apply hnd.1
        rw [← hEq]
        exact List.mem_map_of_mem Prod.fst hr
      rw [if_neg hrne]
      exact hcons r (List.mem_cons_of_mem q hr)

/-- Claim C7, confirmed.  For every trigger that `checkForTriggers`
dispatches to the event handler (the ones its box collection returns,
assuming each covered tile contributes a distinct key), the stored fired
flag becomes the negation of the handler's boolean result: a false
result marks the trigger fired, a true result leaves it eligible to fire
again. -/
theorem checkForTriggers_inverted_polarity (m : Map) (handler : Trigger → Bool) (mo : Obj)
    (hmo : m.masterObject = some mo)
    (hnd : ((m.getTriggersForBox (mo.x + mo.hbx) (mo.y + mo.hby)
        (mo.x + mo.hbx2) (mo.y + mo.hby2)).map Prod.fst).Nodup) :
    ∀ k t, (k, t) ∈ m.getTriggersForBox (mo.x + mo.hbx) (mo.y + mo.hby)
        (mo.x + mo.hbx2) (mo.y + mo.hby2) →
      (Map.checkForTriggers handler m).triggers k =
        some { t with triggered := !(handler t) } := by
  intro k t hkt
  unfold Map.checkForTriggers
  simp only [hmo]
  exact dispatch_result handler _ m hnd
    (fun p hp => (getTriggersForBox_consistent m _ _ _ _ p.1 p.2 hp).1) (k, t) hkt

/-- Witness for `checkForTriggers_inverted_polarity`: the single trigger
at tile 0 under the master's hit-box, with the constantly-false handler;
its flag flips to true (fired). -/
theorem checkForTriggers_inverted_polarity_witness :
    (triggerMap.masterObject = some triggerMaster ∧
     ((triggerMap.getTriggersForBox (triggerMaster.x + triggerMaster.hbx)
        (triggerMaster.y + triggerMaster.hby) (triggerMaster.x + triggerMaster.hbx2)
        (triggerMaster.y + triggerMaster.hby2)).map Prod.fst).Nodup ∧
     (0, (⟨false, 42⟩ : Trigger)) ∈ triggerMap.getTriggersForBox
        (triggerMaster.x + triggerMaster.hbx) (triggerMaster.y + triggerMaster.hby)
        (triggerMaster.x + triggerMaster.hbx2) (triggerMaster.y + triggerMaster.hby2)) ∧
    (Map.checkForTriggers (fun _ => false) triggerMap).triggers 0 =
      some (⟨true, 42⟩ : Trigger) :=
  ⟨⟨rfl, by decide, by decide⟩,
   checkForTriggers_inverted_polarity triggerMap (fun _ => false) triggerMaster rfl
     (by decide) 0 ⟨false, 42⟩ (by decide)⟩

/-- Placing objects never touches the window table or the viewport. -/
theorem addObject_untouched (m : Map) (o : Obj) :
    (m.addObject o).windows = m.windows ∧ (m.addObject o).viewportX = m.viewportX ∧
    (m.addObject o).viewportY = m.viewportY ∧ (m.addObject o).viewportW = m.viewportW ∧
    (m.addObject o).viewportH = m.viewportH ∧ (m.addObject o).maxWinX = m.maxWinX := by
  refine ⟨?_, ?_, ?_, ?_, ?_, ?_⟩ <;>
    (unfold Map.addObject; dsimp only; split_ifs <;> rfl)

/-- Placing a batch of objects never touches the window table or the
viewport. -/
theorem foldAddObject_untouched (items : List Obj) :
    ∀ m : Map, ((items.foldl (fun s o => s.addObject o) m).windows = m.windows ∧
      (items.foldl (fun s o => s.addObject o) m).viewportX = m.viewportX ∧
      (items.foldl (fun s o => s.addObject o) m).viewportY = m.viewportY ∧
      (items.foldl (fun s o => s.addObject o) m).viewportW = m.viewportW ∧
      (items.foldl (fun s o => s.addObject o) m).viewportH = m.viewportH ∧
      (items.foldl (fun s o => s.addObject o) m).maxWinX = m.maxWinX) := by
  induction items with
  | nil => intro m; exact ⟨rfl, rfl, rfl, rfl, rfl, rfl⟩
  | cons o os ih =>
    intro m
    rw [List.foldl_cons]
    obtain ⟨h1, h2, h3, h4, h5, h6⟩ := ih (m.addObject o)
    obtain ⟨g1, g2, g3, g4, g5, g6⟩ := addObject_untouched m o
    exact ⟨h1.trans g1, h2.trans g2, h3.trans g3, h4.trans g4, h5.trans g5, h6.trans g6⟩

/-- Revealing a window never moves the viewport. -/
theorem addNew_untouched (i : Int) (m : Map) :
    (Map.addNewObjectsFromWindow i m).viewportX = m.viewportX ∧
    (Map.addNewObjectsFromWindow i m).viewportY = m.viewportY ∧
    (Map.addNewObjectsFromWindow i m).viewportW = m.viewportW ∧
    (Map.addNewObjectsFromWindow i m).viewportH = m.viewportH ∧
    (Map.addNewObjectsFromWindow i m).maxWinX = m.maxWinX := by
  unfold Map.addNewObjectsFromWindow
  rcases hw : m.windows i with _ | w
  · simp [hw]
  · simp only [hw]
    by_cases hd : w.displayed = false
    · rw [if_pos hd]
      obtain ⟨_, h2, h3, h4, h5, h6⟩ := foldAddObject_untouched w.items _
      exact ⟨h2, h3, h4, h5, h6⟩
    · rw [if_neg hd]
      exact ⟨rfl, rfl, rfl, rfl, rfl⟩

/-- The visited window indices are computed from fields that revealing a
window never changes. -/
theorem windowIndices_addNew (i : Int) (m : Map) :
    Map.windowIndices (Map.addNewObjectsFromWindow i m) = Map.windowIndices m := by
  obtain ⟨h1, h2, h3, h4, h5⟩ := addNew_untouched i m
  unfold Map.windowIndices
  rw [h1, h2, h3, h4, h5]

/-- After revealing a window its index is spent. -/
theorem addNew_done_self (i : Int) (m : Map) :
    (Map.addNewObjectsFromWindow i m).windowDone i := by
  unfold Map.addNewObjectsFromWindow Map.windowDone
  rcases hw : m.windows i with _ | w
  · simp [hw]
  · simp only [hw]
    by_cases hd : w.displayed = false
    · rw [if_pos hd]
      right
      refine ⟨{ w with displayed := true }, ?_, rfl⟩
      rw [(foldAddObject_untouched w.items _).1]
      simp
    · rw [if_neg hd]
      right
      exact ⟨w, hw, by simpa using hd⟩

/-- Revealing one window keeps every spent index spent. -/
theorem addNew_preserves_done (i k : Int) (m : Map) (h : m.windowDone k) :
    (Map.addNewObjectsFromWindow i m).windowDone k := by
  unfold Map.addNewObjectsFromWindow
  rcases hw : m.windows i with _ | w
  · simpa only [hw] using h
  · simp only [hw]
    by_cases hd : w.displayed = false
    · rw [if_pos hd]
      unfold Map.windowDone at h ⊢
      rw [(foldAddObject_untouched w.items _).1]
      dsimp only
      by_cases hk : k = i
      · subst hk
        right
        exact ⟨{ w with displayed := true }, by rw [if_pos rfl], rfl⟩
      · rw [if_neg hk]
        exact h
    · rw [if_neg hd]
      exact h

/-- Revealing a spent window index changes nothing at all. -/
theorem addNew_of_done (i : Int) (m : Map) (h : m.windowDone i) :
    Map.addNewObjectsFromWindow i m = m := by
  unfold Map.addNewObjectsFromWindow
  rcases h with hnone | ⟨w, hw, hd⟩
  · simp only [hnone]
  · simp only [hw]
    rw [if_neg (by simp [hd])]

/-- A window-reveal pass keeps spent indices spent. -/
theorem foldAddNew_preserves_done (l : List Int) (k : Int) :
    ∀ m : Map, m.windowDone k →
      (l.foldl (fun s i => Map.addNewObjectsFromWindow i s) m).windowDone k := by
  induction l with
  | nil => intro m h; exact h
  | cons i is ih =>
    intro m h
    rw [List.foldl_cons]
    exact ih _ (addNew_preserves_done i k m h)

/-- After a window-reveal pass every visited index is spent. -/
theorem foldAddNew_done (l : List Int) :
    ∀ m : Map, ∀ k ∈ l,
      (l.foldl (fun s i => Map.addNewObjectsFromWindow i s) m).windowDone k := by
  induction l with
  | nil => intro m k hk; cases hk
  | cons i is ih =>
    intro m k hk
    rw [List.foldl_cons]
    rcases List.mem_cons.mp hk with hki | hkis
    · subst hki
      exact foldAddNew_preserves_done is k _ (addNew_done_self k m)
    · exact ih _ k hkis

/-- A window-reveal pass over only-spent indices is the identity. -/
theorem foldAddNew_of_done (l : List Int) :
    ∀ m : Map, (∀ k ∈ l, m.windowDone k) →
      l.foldl (fun s i => Map.addNewObjectsFromWindow i s) m = m := by
  induction l with
  | nil => intro m _; rfl
  | cons i is ih =>
    intro m h
    rw [List.foldl_cons, addNew_of_done i m (h i (List.mem_cons_self i is)),
      ih m (fun k hk => h k (List.mem_cons_of_mem i hk))]

/-- A window-reveal pass does not change which indices are visited. -/
theorem foldAddNew_windowIndices (l : List Int) :
    ∀ m : Map, Map.windowIndices (l.foldl (fun s i => Map.addNewObjectsFromWindow i s) m) =
      Map.windowIndices m := by
  induction l with
  | nil => intro m; rfl
  | cons i is ih =>
    intro m
    rw [List.foldl_cons, ih, windowIndices_addNew]

/-- Claim C8, confirmed.  A window is populated at most once:
`addNewObjectsFromWindow` is the identity on any window that is absent or
already displayed, it leaves its own window flagged displayed, and
consequently running `checkVisibleWindows` a second time at the same
viewport position changes nothing — no object is spawned twice — until
`reset()` clears the flags.  The hypothesis `1 ≤ maxWinX` restricts to
the states where the embedded index list coincides with the source
`for`-loop (a non-positive step would not terminate in JS). -/
theorem checkVisibleWindows_spawns_once (m : Map) (_hwin : 1 ≤ m.maxWinX) :
    (∀ i : Int, m.windowDone i → Map.addNewObjectsFromWindow i m = m) ∧
    (∀ i : Int, (Map.addNewObjectsFromWindow i m).windowDone i) ∧
    m.checkVisibleWindows.checkVisibleWindows = m.checkVisibleWindows := by
  refine ⟨fun i h => addNew_of_done i m h, fun i => addNew_done_self i m, ?_⟩
  unfold Map.checkVisibleWindows
  rw [foldAddNew_windowIndices]
  exact foldAddNew_of_done _ _ (fun k hk => foldAddNew_done _ m k hk)

/-- Witness for `checkVisibleWindows_spawns_once` on the one-window map. -/
theorem checkVisibleWindows_spawns_once_witness :
    1 ≤ windowMap.maxWinX ∧
    ((∀ i : Int, windowMap.windowDone i →
        Map.addNewObjectsFromWindow i windowMap = windowMap) ∧
     (∀ i : Int, (Map.addNewObjectsFromWindow i windowMap).windowDone i) ∧
     windowMap.checkVisibleWindows.checkVisibleWindows = windowMap.checkVisibleWindows) :=
  ⟨by decide, checkVisibleWindows_spawns_once windowMap (by decide)⟩

/-- Witness for `below_map_queries_no_match` at the in-bounds-x,
below-the-map point (5, 45) and rectangle (5,45)-(100,50) on the
40-pixel-tall alias map. -/
theorem below_map_queries_no_match_witness :
    ((0 : Int) ≤ 5 ∧ aliasMap4.height ≤ 45 ∧ 0 ≤ aliasMap4.height ∧
     0 < aliasMap4.tileWidth ∧ 0 < aliasMap4.tileHeight ∧ 0 ≤ aliasMap4.numCols ∧
     aliasMap4.numRows = Int.tdiv aliasMap4.height aliasMap4.tileHeight ∧
     (aliasMap4.tileBehaviors.length : Int) ≤ aliasMap4.numCols * aliasMap4.numRows) ∧
    (aliasMap4.fallTest 5 45 = false ∧
     aliasMap4.hitObjectTest 5 45 100 50 TileTypeWALL = none) :=
  ⟨⟨by decide, by decide, by decide, by decide, by decide, by decide, by decide, by decide⟩,
   below_map_queries_no_match aliasMap4 5 45 100 50 TileTypeWALL (by decide) (by decide)
     (by decide) (by decide) (by decide) (by decide) (by decide) (by decide)⟩

end AthenaJS
